import Mathlib

/-!
Verification development for the ChatLofi notification server (`server.js`).

The server is shallowly embedded: each HTTP handler becomes a pure Lean
function from an explicit environment (the Firestore directory, the FCM push
provider, the notification store, the follower index) and the request fields
to a `HandlerResult` recording the HTTP status, the JSON body, and the
externally visible effects (directory lookups, push attempts, record writes).
JavaScript `undefined`/missing string fields are modelled as `Option String`
(`none` = absent), and JS truthiness on strings (`!x`) as `falsy`.
-/

namespace ChatLofi

/-- JSON values appearing in the response bodies of the server. -/
inductive Json where
  | str (s : String)
  | num (n : Nat)
  | bool (b : Bool)
deriving Repr, DecidableEq

/-- JS truthiness test for an optional string: `!x` is true when the field is
absent (`undefined`/`null`) or the empty string. -/
def falsy (o : Option String) : Bool :=
  o.getD "" = ""

/-- JS `x || d` for an optional string `x` and default `d`. -/
def jsOr (o : Option String) (d : String) : String :=
  match o with
  | some s => if s = "" then d else s
  | none => d

/-- A persisted notification document, as written by
`saveNotificationToFirestore` (`createdAt` is a server-assigned timestamp of
the external store and carries no information in the model). -/
structure NotificationRecord where
  recipientId : String
  type : String
  title : String
  body : String
  data : List (String × String)
  read : Bool
deriving Repr, DecidableEq

/-- Result of one HTTP handler: status, JSON body (field list), and the
externally visible effects in order: user-directory lookups, push-send
attempts (FCM tokens), and notification-record writes. -/
structure HandlerResult where
  status : Nat
  body : List (String × Json)
  lookups : List String
  pushes : List String
  saves : List NotificationRecord
deriving Repr, DecidableEq

/-- The external collaborators of the server.
`users u`: Firestore `users/u` document — `none` if the document does not
exist, otherwise the raw `fcmToken` field (`none` = field missing or null).
`push t`: outcome of `admin.messaging().send` to token `t` — `ok messageId`
or `error message` (a rejected promise).
`saveOk r` / `saveId r`: whether the notification write for recipient `r`
succeeds and the document id assigned to it.
`followers u`: the `followers` query result for `followingId == u`, as the
list of the `followerId` fields of the documents (`none` = field missing). -/
structure Env where
  users : String → Option (Option String)
  push : String → Except String String
  saveOk : String → Bool
  saveId : String → String
  followers : String → List (Option String)

/-- `getUserFcmToken` from `server.js`: returns `{fcmToken, exists}`.
`userDoc.data()?.fcmToken || null` collapses a falsy token (missing, null or
empty string) to `null`. -/
def getUserFcmToken (users : String → Option (Option String)) (userId : String) :
    Option String × Bool :=
  match users userId with
  | none => (none, false)
  | some raw =>
    (match raw with
     | some s => if s = "" then none else some s
     | none => none, true)

/-- The `cleanData` step of `saveNotificationToFirestore`: entries whose
value is `undefined` or `null` are removed from the data object. -/
def cleanData (data : List (String × Option String)) : List (String × String) :=
  data.filterMap (fun kv => kv.2.map (fun v => (kv.1, v)))

/-- `saveNotificationToFirestore` from `server.js`: builds the notification
document (with `read: false` and cleaned `data`) and attempts the write; any
write error is caught, so the function never throws — it returns the new
document id on success and `null` (here `none`) on failure. The second
component is the record whose write was performed. -/
def saveNotificationToFirestore (env : Env) (recipientId type title body : String)
    (data : List (String × Option String)) : Option String × NotificationRecord :=
  let doc : NotificationRecord :=
    ⟨recipientId, type, title, body, cleanData data, false⟩
  (if env.saveOk recipientId then some (env.saveId recipientId) else none, doc)

/-- JS `String.prototype.trim()`: strips whitespace from both ends (the JS
`\s` class approximated by `Char.isWhitespace`), written over the char list
so that it evaluates by kernel reduction. -/
def jsTrim (s : String) : String :=
  ((s.toList.dropWhile Char.isWhitespace).reverse.dropWhile
    Char.isWhitespace).reverse.asString

/-- The token filter used by the fan-out endpoints: the value is a string
whose trimmed length is positive. -/
def goodToken (t : Option String) : Option String :=
  match t with
  | some s => if (jsTrim s).length > 0 then some s else none
  | none => none

/-- `Promise.allSettled` status of one push send: `fulfilled` iff the
provider promise resolved. -/
def fulfilled (r : Except String String) : Bool :=
  match r with
  | .ok _ => true
  | .error _ => false

/-- The `Chats/{chatId}` document as read by `/api/notify/message`:
`UID` (member list) and `mutedUsers`; a missing or non-array field is
modelled as `none` (the handler replaces it by `[]`). -/
structure ChatData where
  uid : Option (List String)
  mutedUsers : Option (List String)
deriving Repr, DecidableEq

/-- Handler of `POST /api/notify/message` from `server.js`: after
validation and chat lookup it (1) writes one notification record for every
member except the sender — muted or not — and (2) attempts a push send only
for the non-muted recipients that have a usable FCM token, responding with
the aggregate counts. -/
def notifyMessage (env : Env) (chats : String → Option ChatData)
    (chatId messageId senderId senderName text : Option String) : HandlerResult :=
  if falsy chatId || falsy senderId then
    ⟨400, [("error", .str "Missing required fields")], [], [], []⟩
  else
    let chatIdV := chatId.getD ""
    let senderIdV := senderId.getD ""
    match chats chatIdV with
    | none => ⟨404, [("error", .str "Chat not found")], [], [], []⟩
    | some chatData =>
      let memberIds := chatData.uid.getD []
      let mutedUsers := chatData.mutedUsers.getD []
      let allRecipientIds := memberIds.filter (fun uid => uid ≠ senderIdV)
      let pushRecipientIds := allRecipientIds.filter (fun uid => !mutedUsers.contains uid)
      let saves := allRecipientIds.map (fun recipientId =>
        (saveNotificationToFirestore env recipientId "new_message"
          (jsOr senderName "Tin nhắn mới") (jsOr text "📷 Hình ảnh")
          [("roomId", some chatIdV), ("senderId", some senderIdV),
           ("senderName", senderName), ("messageId", messageId)]).2)
      if pushRecipientIds.isEmpty then
        ⟨200,
         [("success", .bool true),
          ("message", .str "Notifications saved, but no push recipients (all muted)"),
          ("sent", .num 0), ("saved", .num allRecipientIds.length),
          ("muted", .num mutedUsers.length)],
         [], [], saves⟩
      else
        let tokenResults := pushRecipientIds.map (fun uid => getUserFcmToken env.users uid)
        let tokens := (tokenResults.map (fun r => r.1)).filterMap goodToken
        if tokens.isEmpty then
          ⟨200,
           [("success", .bool true),
            ("message", .str "Notifications saved, but no FCM tokens for push"),
            ("sent", .num 0), ("saved", .num allRecipientIds.length)],
           pushRecipientIds, [], saves⟩
        else
          let sendResults := tokens.map env.push
          let successful := (sendResults.filter (fun r => fulfilled r)).length
          ⟨200,
           [("success", .bool true), ("sent", .num successful),
            ("total", .num tokens.length), ("saved", .num allRecipientIds.length),
            ("mutedCount", .num mutedUsers.length)],
           pushRecipientIds, tokens, saves⟩

/-- Handler of `POST /api/notify/new-post` from `server.js`: fans a push out
to every follower of `userId` that has a usable token. No notification
record is written by this endpoint. -/
def notifyNewPost (env : Env) (postId userId userName : Option String) : HandlerResult :=
  if falsy postId || falsy userId then
    ⟨400, [("error", .str "Missing required fields")], [], [], []⟩
  else
    let postIdV := postId.getD ""
    let userIdV := userId.getD ""
    let docs := env.followers userIdV
    if docs.isEmpty then
      ⟨200,
       [("success", .bool true), ("message", .str "No followers to notify"),
        ("sent", .num 0)], [], [], []⟩
    else
      let followerIds := docs.filterMap goodToken
      if followerIds.isEmpty then
        ⟨200,
         [("success", .bool true), ("message", .str "No valid follower IDs"),
          ("sent", .num 0)], [], [], []⟩
      else
        let tokenResults := followerIds.map (fun uid => getUserFcmToken env.users uid)
        let tokens := (tokenResults.map (fun r => r.1)).filterMap goodToken
        if tokens.isEmpty then
          ⟨200,
           [("success", .bool true), ("message", .str "No followers with FCM tokens"),
            ("sent", .num 0)], followerIds, [], []⟩
        else
          let sendResults := tokens.map env.push
          let successful := (sendResults.filter (fun r => fulfilled r)).length
          let _ := postIdV
          ⟨200,
           [("success", .bool true), ("sent", .num successful),
            ("total", .num tokens.length)],
           followerIds, tokens, []⟩

/-- Handler of `POST /api/notify/friend-request` from `server.js`. The push
send is awaited first; a rejected send throws to the catch block (HTTP 500)
and the notification record is then never written. -/
def notifyFriendRequest (env : Env) (recipientId senderId senderName : Option String) :
    HandlerResult :=
  if falsy recipientId || falsy senderId then
    ⟨400, [("error", .str "Missing required fields")], [], [], []⟩
  else
    let recipientIdV := recipientId.getD ""
    let senderIdV := senderId.getD ""
    let lk := getUserFcmToken env.users recipientIdV
    if !lk.2 then
      ⟨404, [("error", .str "Recipient not found")], [recipientIdV], [], []⟩
    else if falsy lk.1 then
      ⟨400, [("error", .str "Recipient has no FCM token")], [recipientIdV], [], []⟩
    else
      let token := lk.1.getD ""
      let title := jsOr senderName "Lời mời kết bạn mới"
      let body :=
        match senderName with
        | some s =>
          if s = "" then "Bạn có lời mời kết bạn mới"
          else s ++ " đã gửi cho bạn lời mời kết bạn"
        | none => "Bạn có lời mời kết bạn mới"
      match env.push token with
      | .error e =>
        ⟨500,
         [("error", .str "Failed to send friend request notification"),
          ("message", .str e)], [recipientIdV], [token], []⟩
      | .ok msgId =>
        let saved := (saveNotificationToFirestore env recipientIdV "friend_request"
          title body [("senderId", some senderIdV), ("senderName", senderName)]).2
        ⟨200, [("success", .bool true), ("messageId", .str msgId)],
         [recipientIdV], [token], [saved]⟩

/-- Handler of `POST /api/notify/friend-request-accepted` from `server.js`;
same push-before-persist structure as the friend-request handler. -/
def notifyFriendRequestAccepted (env : Env)
    (recipientId acceptorId acceptorName : Option String) : HandlerResult :=
  if falsy recipientId || falsy acceptorId then
    ⟨400, [("error", .str "Missing required fields")], [], [], []⟩
  else
    let recipientIdV := recipientId.getD ""
    let acceptorIdV := acceptorId.getD ""
    let lk := getUserFcmToken env.users recipientIdV
    if !lk.2 then
      ⟨404, [("error", .str "Recipient not found")], [recipientIdV], [], []⟩
    else if falsy lk.1 then
      ⟨400, [("error", .str "Recipient has no FCM token")], [recipientIdV], [], []⟩
    else
      let token := lk.1.getD ""
      let title := "Lời mời kết bạn được chấp nhận"
      let body :=
        match acceptorName with
        | some s =>
          if s = "" then "Lời mời kết bạn của bạn đã được chấp nhận"
          else s ++ " đã chấp nhận lời mời kết bạn của bạn"
        | none => "Lời mời kết bạn của bạn đã được chấp nhận"
      match env.push token with
      | .error e =>
        ⟨500, [("error", .str "Failed to send notification"), ("message", .str e)],
         [recipientIdV], [token], []⟩
      | .ok msgId =>
        let saved := (saveNotificationToFirestore env recipientIdV "friend_accept"
          title body [("senderId", some acceptorIdV), ("senderName", acceptorName)]).2
        ⟨200, [("success", .bool true), ("messageId", .str msgId)],
         [recipientIdV], [token], [saved]⟩

/-- The quoted, truncated text used by the post-comment and comment-reply
bodies: the first 50 characters of the text, defaulted to three dots when
the text is absent or empty. -/
def quoteText (t : Option String) : String :=
  match t with
  | some s => if s.take 50 = "" then "..." else s.take 50
  | none => "..."

/-- Handler of `POST /api/notify/post-comment` from `server.js`: a comment
on their own post short-circuits to a `sent: 0` success with no external
call; otherwise push-then-persist as in the other single-recipient paths. -/
def notifyPostComment (env : Env)
    (postId postOwnerId commenterId commenterName commentText : Option String) :
    HandlerResult :=
  if falsy postId || falsy postOwnerId || falsy commenterId then
    ⟨400, [("error", .str "Missing required fields")], [], [], []⟩
  else if postOwnerId.getD "" = commenterId.getD "" then
    ⟨200,
     [("success", .bool true),
      ("message", .str "User commented on their own post, no notification needed"),
      ("sent", .num 0)], [], [], []⟩
  else
    let postIdV := postId.getD ""
    let ownerV := postOwnerId.getD ""
    let commenterV := commenterId.getD ""
    let lk := getUserFcmToken env.users ownerV
    if !lk.2 then
      ⟨404, [("error", .str "Post owner not found")], [ownerV], [], []⟩
    else if falsy lk.1 then
      ⟨400, [("error", .str "Post owner has no FCM token")], [ownerV], [], []⟩
    else
      let token := lk.1.getD ""
      let title := "Bình luận mới"
      let body :=
        match commenterName with
        | some s =>
          if s = "" then "Có người bình luận bài viết của bạn"
          else s ++ " đã bình luận: \"" ++ quoteText commentText ++ "\""
        | none => "Có người bình luận bài viết của bạn"
      match env.push token with
      | .error e =>
        ⟨500, [("error", .str "Failed to send notification"), ("message", .str e)],
         [ownerV], [token], []⟩
      | .ok msgId =>
        let saved := (saveNotificationToFirestore env ownerV "post_comment"
          title body
          [("postId", some postIdV), ("senderId", some commenterV),
           ("senderName", commenterName), ("commentText", commentText)]).2
        ⟨200, [("success", .bool true), ("messageId", .str msgId)],
         [ownerV], [token], [saved]⟩

/-- The fixed reaction→glyph mapping of `/api/notify/post-reaction`; an
unrecognized (or absent) reaction code falls back to the like glyph. -/
def reactionEmoji (reactionType : Option String) : String :=
  match reactionType with
  | some "like" => "👍"
  | some "love" => "❤️"
  | some "haha" => "😆"
  | some "wow" => "😮"
  | some "sad" => "😢"
  | some "angry" => "😠"
  | _ => "👍"

/-- Handler of `POST /api/notify/post-reaction` from `server.js`. -/
def notifyPostReaction (env : Env)
    (postId postOwnerId reactorId reactorName reactionType : Option String) :
    HandlerResult :=
  if falsy postId || falsy postOwnerId || falsy reactorId then
    ⟨400, [("error", .str "Missing required fields")], [], [], []⟩
  else if postOwnerId.getD "" = reactorId.getD "" then
    ⟨200,
     [("success", .bool true),
      ("message", .str "User reacted to their own post, no notification needed"),
      ("sent", .num 0)], [], [], []⟩
  else
    let postIdV := postId.getD ""
    let ownerV := postOwnerId.getD ""
    let reactorV := reactorId.getD ""
    let lk := getUserFcmToken env.users ownerV
    if !lk.2 then
      ⟨404, [("error", .str "Post owner not found")], [ownerV], [], []⟩
    else if falsy lk.1 then
      ⟨400, [("error", .str "Post owner has no FCM token")], [ownerV], [], []⟩
    else
      let token := lk.1.getD ""
      let emoji := reactionEmoji reactionType
      let title := "Biểu cảm mới"
      let body :=
        match reactorName with
        | some s =>
          if s = "" then "Có người " ++ emoji ++ " bài viết của bạn"
          else s ++ " " ++ emoji ++ " bài viết của bạn"
        | none => "Có người " ++ emoji ++ " bài viết của bạn"
      match env.push token with
      | .error e =>
        ⟨500, [("error", .str "Failed to send notification"), ("message", .str e)],
         [ownerV], [token], []⟩
      | .ok msgId =>
        let saved := (saveNotificationToFirestore env ownerV "post_reaction"
          title body
          [("postId", some postIdV), ("senderId", some reactorV),
           ("senderName", reactorName), ("reactionType", reactionType)]).2
        ⟨200, [("success", .bool true), ("messageId", .str msgId)],
         [ownerV], [token], [saved]⟩

/-- Handler of `POST /api/notify/post-share` from `server.js`. -/
def notifyPostShare (env : Env)
    (postId postOwnerId sharerId sharerName : Option String) : HandlerResult :=
  if falsy postId || falsy postOwnerId || falsy sharerId then
    ⟨400, [("error", .str "Missing required fields")], [], [], []⟩
  else if postOwnerId.getD "" = sharerId.getD "" then
    ⟨200,
     [("success", .bool true),
      ("message", .str "User shared their own post, no notification needed"),
      ("sent", .num 0)], [], [], []⟩
  else
    let postIdV := postId.getD ""
    let ownerV := postOwnerId.getD ""
    let sharerV := sharerId.getD ""
    let lk := getUserFcmToken env.users ownerV
    if !lk.2 then
      ⟨404, [("error", .str "Post owner not found")], [ownerV], [], []⟩
    else if falsy lk.1 then
      ⟨400, [("error", .str "Post owner has no FCM token")], [ownerV], [], []⟩
    else
      let token := lk.1.getD ""
      let title := "Bài viết được chia sẻ"
      let body :=
        match sharerName with
        | some s =>
          if s = "" then "Có người đã chia sẻ bài viết của bạn"
          else s ++ " đã chia sẻ bài viết của bạn"
        | none => "Có người đã chia sẻ bài viết của bạn"
      match env.push token with
      | .error e =>
        ⟨500, [("error", .str "Failed to send notification"), ("message", .str e)],
         [ownerV], [token], []⟩
      | .ok msgId =>
        let saved := (saveNotificationToFirestore env ownerV "post_share"
          title body
          [("postId", some postIdV), ("senderId", some sharerV),
           ("senderName", sharerName)]).2
        ⟨200, [("success", .bool true), ("messageId", .str msgId)],
         [ownerV], [token], [saved]⟩

/-- Handler of `POST /api/notify/comment-reply` from `server.js`. -/
def notifyCommentReply (env : Env)
    (postId commentOwnerId replierId replierName replyText : Option String) :
    HandlerResult :=
  if falsy postId || falsy commentOwnerId || falsy replierId then
    ⟨400, [("error", .str "Missing required fields")], [], [], []⟩
  else if commentOwnerId.getD "" = replierId.getD "" then
    ⟨200,
     [("success", .bool true),
      ("message", .str "User replied to their own comment, no notification needed"),
      ("sent", .num 0)], [], [], []⟩
  else
    let postIdV := postId.getD ""
    let ownerV := commentOwnerId.getD ""
    let replierV := replierId.getD ""
    let lk := getUserFcmToken env.users ownerV
    if !lk.2 then
      ⟨404, [("error", .str "Comment owner not found")], [ownerV], [], []⟩
    else if falsy lk.1 then
      ⟨400, [("error", .str "Comment owner has no FCM token")], [ownerV], [], []⟩
    else
      let token := lk.1.getD ""
      let title := "Trả lời bình luận"
      let body :=
        match replierName with
        | some s =>
          if s = "" then "Có người trả lời bình luận của bạn"
          else s ++ " đã trả lời bình luận của bạn: \"" ++ quoteText replyText ++ "\""
        | none => "Có người trả lời bình luận của bạn"
      match env.push token with
      | .error e =>
        ⟨500, [("error", .str "Failed to send notification"), ("message", .str e)],
         [ownerV], [token], []⟩
      | .ok msgId =>
        let saved := (saveNotificationToFirestore env ownerV "comment_reply"
          title body
          [("postId", some postIdV), ("senderId", some replierV),
           ("senderName", replierName), ("replyText", replyText)]).2
        ⟨200, [("success", .bool true), ("messageId", .str msgId)],
         [ownerV], [token], [saved]⟩

/-- Handler of `POST /api/notify/comment-like` from `server.js`. -/
def notifyCommentLike (env : Env)
    (postId commentId commentOwnerId likerId likerName : Option String) :
    HandlerResult :=
  if falsy postId || falsy commentId || falsy commentOwnerId || falsy likerId then
    ⟨400, [("error", .str "Missing required fields")], [], [], []⟩
  else if commentOwnerId.getD "" = likerId.getD "" then
    ⟨200,
     [("success", .bool true),
      ("message", .str "User liked their own comment, no notification needed"),
      ("sent", .num 0)], [], [], []⟩
  else
    let postIdV := postId.getD ""
    let commentIdV := commentId.getD ""
    let ownerV := commentOwnerId.getD ""
    let likerV := likerId.getD ""
    let lk := getUserFcmToken env.users ownerV
    if !lk.2 then
      ⟨404, [("error", .str "Comment owner not found")], [ownerV], [], []⟩
    else if falsy lk.1 then
      ⟨400, [("error", .str "Comment owner has no FCM token")], [ownerV], [], []⟩
    else
      let token := lk.1.getD ""
      let title := "Bình luận được thích"
      let body :=
        match likerName with
        | some s =>
          if s = "" then "Có người thích bình luận của bạn"
          else s ++ " đã thích bình luận của bạn"
        | none => "Có người thích bình luận của bạn"
      match env.push token with
      | .error e =>
        ⟨500, [("error", .str "Failed to send notification"), ("message", .str e)],
         [ownerV], [token], []⟩
      | .ok msgId =>
        let saved := (saveNotificationToFirestore env ownerV "comment_like"
          title body
          [("postId", some postIdV), ("commentId", some commentIdV),
           ("senderId", some likerV), ("senderName", likerName)]).2
        ⟨200, [("success", .bool true), ("messageId", .str msgId)],
         [ownerV], [token], [saved]⟩

/-- Handler of `POST /api/notify/group-invite` from `server.js` (no
self-action check on this endpoint). -/
def notifyGroupInvite (env : Env)
    (recipientId groupId groupName inviterId inviterName : Option String) :
    HandlerResult :=
  if falsy recipientId || falsy groupId || falsy inviterId then
    ⟨400, [("error", .str "Missing required fields")], [], [], []⟩
  else
    let recipientIdV := recipientId.getD ""
    let groupIdV := groupId.getD ""
    let inviterIdV := inviterId.getD ""
    let lk := getUserFcmToken env.users recipientIdV
    if !lk.2 then
      ⟨404, [("error", .str "Recipient not found")], [recipientIdV], [], []⟩
    else if falsy lk.1 then
      ⟨400, [("error", .str "Recipient has no FCM token")], [recipientIdV], [], []⟩
    else
      let token := lk.1.getD ""
      let title := "Lời mời vào nhóm"
      let body :=
        if !falsy inviterName && !falsy groupName then
          inviterName.getD "" ++ " đã mời bạn vào nhóm \"" ++ groupName.getD "" ++ "\""
        else "Bạn được mời vào một nhóm chat mới"
      match env.push token with
      | .error e =>
        ⟨500, [("error", .str "Failed to send notification"), ("message", .str e)],
         [recipientIdV], [token], []⟩
      | .ok msgId =>
        let saved := (saveNotificationToFirestore env recipientIdV "group_invite"
          title body
          [("groupId", some groupIdV), ("groupName", some (jsOr groupName "")),
           ("inviterId", some inviterIdV), ("inviterName", some (jsOr inviterName "")),
           ("screen", some "Chat_fr")]).2
        ⟨200, [("success", .bool true), ("messageId", .str msgId)],
         [recipientIdV], [token], [saved]⟩

/-- Handler of `POST /api/notify/mention` from `server.js`: a self-mention
short-circuits to a `sent: 0` success with no external call. -/
def notifyMention (env : Env)
    (recipientId mentionerId mentionerName postId commentId type : Option String) :
    HandlerResult :=
  if falsy recipientId || falsy mentionerId then
    ⟨400, [("error", .str "Missing required fields")], [], [], []⟩
  else if recipientId.getD "" = mentionerId.getD "" then
    ⟨200,
     [("success", .bool true),
      ("message", .str "User mentioned themselves, no notification needed"),
      ("sent", .num 0)], [], [], []⟩
  else
    let recipientIdV := recipientId.getD ""
    let mentionerIdV := mentionerId.getD ""
    let lk := getUserFcmToken env.users recipientIdV
    if !lk.2 then
      ⟨404, [("error", .str "Recipient not found")], [recipientIdV], [], []⟩
    else if falsy lk.1 then
      ⟨400, [("error", .str "Recipient has no FCM token")], [recipientIdV], [], []⟩
    else
      let token := lk.1.getD ""
      let place := if type = some "comment" then "bình luận" else "bài viết"
      let title := "Bạn được nhắc đến"
      let body :=
        match mentionerName with
        | some s =>
          if s = "" then "Bạn được nhắc đến trong một " ++ place
          else s ++ " đã nhắc đến bạn trong " ++ place
        | none => "Bạn được nhắc đến trong một " ++ place
      match env.push token with
      | .error e =>
        ⟨500, [("error", .str "Failed to send notification"), ("message", .str e)],
         [recipientIdV], [token], []⟩
      | .ok msgId =>
        let saved := (saveNotificationToFirestore env recipientIdV "mention"
          title body
          [("mentionType", some (jsOr type "post")), ("postId", some (jsOr postId "")),
           ("commentId", some (jsOr commentId "")), ("mentionerId", some mentionerIdV),
           ("mentionerName", some (jsOr mentionerName "")),
           ("screen", some "PostDetail")]).2
        ⟨200, [("success", .bool true), ("messageId", .str msgId)],
         [recipientIdV], [token], [saved]⟩

/-! ### One-time-code (OTP) manager -/

/-- `OTP_EXPIRY_MINUTES` from `server.js`. -/
def OTP_EXPIRY_MINUTES : Nat := 5

/-- `MAX_OTP_ATTEMPTS` from `server.js`. -/
def MAX_OTP_ATTEMPTS : Nat := 3

/-- One entry of the in-memory `otpStore` map:
`{otp, expiresAt, attempts, createdAt}` (times in milliseconds). -/
structure OtpEntry where
  otp : String
  expiresAt : Nat
  attempts : Nat
  createdAt : Nat
deriving Repr, DecidableEq

/-- The volatile `otpStore` map, email → entry, as an association list. -/
abbrev OtpStore := List (String × OtpEntry)

/-- `otpStore.get(email)`. -/
def otpGet (s : OtpStore) (email : String) : Option OtpEntry :=
  (List.find? (fun kv => kv.1 = email) s).map (fun kv => kv.2)

/-- `otpStore.set(email, entry)` — replaces any previous entry for the key. -/
def otpSet (s : OtpStore) (email : String) (e : OtpEntry) : OtpStore :=
  (email, e) :: List.filter (fun kv => kv.1 ≠ email) s

/-- `otpStore.delete(email)`. -/
def otpDelete (s : OtpStore) (email : String) : OtpStore :=
  List.filter (fun kv => kv.1 ≠ email) s

/-- The email-format regex of `/api/otp/send`:
`^[^\s@]+@[^\s@]+\.[^\s@]+$` — no whitespace anywhere, exactly one `@` with
a non-empty local part, and a dot inside the domain with non-empty text on
both sides. -/
def emailRegexTest (s : String) : Bool :=
  let cs := s.toList
  cs.all (fun c => !c.isWhitespace) &&
  match cs.splitOn '@' with
  | [l, d] => !l.isEmpty && (d.drop 1).dropLast.contains '.'
  | _ => false

/-- Outcome of `POST /api/otp/send` (and `/api/otp/resend`). -/
inductive SendOutcome where
  /-- 400 `Email is required`. -/
  | missingEmail
  /-- 400 `Invalid email format`. -/
  | invalidFormat
  /-- 429 `Please wait before requesting a new OTP` with `retryAfter`. -/
  | rateLimited (retryAfter : Int)
  /-- 200 `{success: true, expiresIn}`. -/
  | ok (expiresIn : Nat)
  /-- 500 `Failed to send OTP` (the mail send rejected; the fresh entry has
  already been stored and is not rolled back). -/
  | mailError
deriving Repr, DecidableEq

/-- Handler of `POST /api/otp/send` from `server.js`. `now` is
`Date.now()` in ms, `newOtp` the code drawn by `generateOTP`, and `emailOk`
tells whether the external mail send resolves. Returns the outcome and the
updated `otpStore`. The rate-limit check: with an active entry,
`remainingSeconds = ceil((expiresAt − now)/1000)`; the request is rejected
when `remainingSeconds > OTP_EXPIRY_MINUTES*60 − 60`, with
`retryAfter = 60 − (OTP_EXPIRY_MINUTES*60 − remainingSeconds)`. -/
def otpSend (s : OtpStore) (email : Option String) (now : Nat) (newOtp : String)
    (emailOk : Bool) : SendOutcome × OtpStore :=
  if falsy email then (.missingEmail, s)
  else
    let emailV := email.getD ""
    if !emailRegexTest emailV then (.invalidFormat, s)
    else
      let limited :=
        match otpGet s emailV with
        | some existing =>
          if existing.expiresAt > now then
            let remainingSeconds := (existing.expiresAt - now + 999) / 1000
            if remainingSeconds > OTP_EXPIRY_MINUTES * 60 - 60 then
              some (60 - ((OTP_EXPIRY_MINUTES * 60 : Int) - remainingSeconds))
            else none
          else none
        | none => none
      match limited with
      | some retryAfter => (.rateLimited retryAfter, s)
      | none =>
        let expiresAt := now + OTP_EXPIRY_MINUTES * 60 * 1000
        let s' := otpSet s emailV ⟨newOtp, expiresAt, 0, now⟩
        if emailOk then (.ok (OTP_EXPIRY_MINUTES * 60), s')
        else (.mailError, s')

/-- Handler of `POST /api/otp/resend` from `server.js`: unconditionally
deletes any existing entry, then stores and mails a fresh code with no
rate-limit check. -/
def otpResend (s : OtpStore) (email : Option String) (now : Nat) (newOtp : String)
    (emailOk : Bool) : SendOutcome × OtpStore :=
  if falsy email then (.missingEmail, s)
  else
    let emailV := email.getD ""
    let s1 := otpDelete s emailV
    let expiresAt := now + OTP_EXPIRY_MINUTES * 60 * 1000
    let s2 := otpSet s1 emailV ⟨newOtp, expiresAt, 0, now⟩
    if emailOk then (.ok (OTP_EXPIRY_MINUTES * 60), s2)
    else (.mailError, s2)

/-- Outcome of `POST /api/otp/verify`. -/
inductive VerifyOutcome where
  /-- 400 `Email and OTP are required`. -/
  | missingFields
  /-- 400 code `OTP_NOT_FOUND`. -/
  | notFound
  /-- 400 code `OTP_EXPIRED` (entry deleted). -/
  | expired
  /-- 400 code `TOO_MANY_ATTEMPTS` (entry deleted). -/
  | tooManyAttempts
  /-- 400 code `INVALID_OTP` with `remainingAttempts`. -/
  | invalidOtp (remainingAttempts : Nat)
  /-- 200 `{success: true, verified: true}` (entry deleted). -/
  | verified
deriving Repr, DecidableEq

/-- Handler of `POST /api/otp/verify` from `server.js`: looks the entry up,
checks expiry, then the attempt cap, then compares the stored code with the
trimmed input; a mismatch increments `attempts` and reports the remaining
count, a match deletes the entry and succeeds. -/
def otpVerify (s : OtpStore) (email otp : Option String) (now : Nat) :
    VerifyOutcome × OtpStore :=
  if falsy email || falsy otp then (.missingFields, s)
  else
    let emailV := email.getD ""
    let otpV := otp.getD ""
    match otpGet s emailV with
    | none => (.notFound, s)
    | some storedData =>
      if storedData.expiresAt < now then (.expired, otpDelete s emailV)
      else if storedData.attempts ≥ MAX_OTP_ATTEMPTS then
        (.tooManyAttempts, otpDelete s emailV)
      else if storedData.otp ≠ jsTrim otpV then
        let bumped := { storedData with attempts := storedData.attempts + 1 }
        (.invalidOtp (MAX_OTP_ATTEMPTS - bumped.attempts), otpSet s emailV bumped)
      else (.verified, otpDelete s emailV)

/-- `generateOTP` from `server.js`:
`Math.floor(100000 + Math.random() * 900000).toString()`, with the random
draw `r ∈ [0, 1)` modelled as a rational number. -/
def generateOTP (r : ℚ) : String :=
  (Int.toNat (Int.floor ((100000 : ℚ) + r * 900000))).repr

/-- The `^\d{6}$` pattern: exactly six decimal-digit characters. -/
def isSixDigits (s : String) : Bool :=
  s.length = 6 && s.toList.all Char.isDigit

/-! ### Derived notions used in the theorem statements -/

/-- The resolved recipient set of a message event: all chat members except
the sender (`allRecipientIds` in the handler). -/
def msgAllRecipients (cd : ChatData) (senderIdV : String) : List String :=
  (cd.uid.getD []).filter (fun uid => uid ≠ senderIdV)

/-- The push-eligible subset: resolved recipients minus the muted set
(`pushRecipientIds` in the handler). -/
def msgPushRecipients (cd : ChatData) (senderIdV : String) : List String :=
  (msgAllRecipients cd senderIdV).filter
    (fun uid => !(cd.mutedUsers.getD []).contains uid)

/-- The usable token of one user, after the directory lookup and the
non-empty-trim filter of the fan-out paths. -/
def userTokenOf (env : Env) (uid : String) : Option String :=
  goodToken (getUserFcmToken env.users uid).1

/-- Numeric field lookup in a JSON body. -/
def getNum (body : List (String × Json)) (k : String) : Option Nat :=
  (List.find? (fun kv => kv.1 = k) body).bind
    (fun kv => match kv.2 with | .num n => some n | _ => none)

/-! ### Basic lemmas about the store and list plumbing -/

theorem otpGet_otpSet_self (s : OtpStore) (k : String) (e : OtpEntry) :
    otpGet (otpSet s k e) k = some e := by
  simp [otpGet, otpSet]

theorem otpGet_otpDelete_self (s : OtpStore) (k : String) :
    otpGet (otpDelete s k) k = none := by
  have h : List.find? (fun kv : String × OtpEntry => kv.1 = k) (otpDelete s k) = none := by
    rw [List.find?_eq_none]
    intro kv hkv
    have := List.of_mem_filter hkv
    simpa using this
  simp [otpGet, h]

theorem length_filterMap_eq_countP {α β : Type} (f : α → Option β) (l : List α) :
    (l.filterMap f).length = l.countP (fun a => (f a).isSome) := by
  induction l with
  | nil => rfl
  | cons a l ih =>
    cases h : f a with
    | none => simp [List.filterMap_cons, h, List.countP_cons, ih]
    | some b => simp [List.filterMap_cons, h, List.countP_cons, ih]

/-- One characterization equation for `notifyMessage` once the chat is
found: the three success branches, with the token pipeline fused into a
single `filterMap`. -/
theorem notifyMessage_found (env : Env) (chats : String → Option ChatData)
    (chatId messageId senderId senderName text : Option String) (cd : ChatData)
    (h1 : falsy chatId = false) (h2 : falsy senderId = false)
    (hfound : chats (chatId.getD "") = some cd) :
    notifyMessage env chats chatId messageId senderId senderName text =
      (let allR := msgAllRecipients cd (senderId.getD "")
       let pushR := msgPushRecipients cd (senderId.getD "")
       let tokens := pushR.filterMap (userTokenOf env)
       let saves := allR.map (fun recipientId =>
         (saveNotificationToFirestore env recipientId "new_message"
           (jsOr senderName "Tin nhắn mới") (jsOr text "📷 Hình ảnh")
           [("roomId", some (chatId.getD "")), ("senderId", some (senderId.getD "")),
            ("senderName", senderName), ("messageId", messageId)]).2)
       if pushR.isEmpty then
         ⟨200,
          [("success", .bool true),
           ("message", .str "Notifications saved, but no push recipients (all muted)"),
           ("sent", .num 0), ("saved", .num allR.length),
           ("muted", .num (cd.mutedUsers.getD []).length)],
          [], [], saves⟩
       else if tokens.isEmpty then
         ⟨200,
          [("success", .bool true),
           ("message", .str "Notifications saved, but no FCM tokens for push"),
           ("sent", .num 0), ("saved", .num allR.length)],
          pushR, [], saves⟩
       else
         ⟨200,
          [("success", .bool true),
           ("sent", .num ((tokens.map env.push).filter (fun r => fulfilled r)).length),
           ("total", .num tokens.length), ("saved", .num allR.length),
           ("mutedCount", .num (cd.mutedUsers.getD []).length)],
          pushR, tokens, saves⟩) := by
  simp only [notifyMessage, h1, h2, Bool.or_self, Bool.false_eq_true, if_false, hfound,
    msgAllRecipients, msgPushRecipients, userTokenOf, List.map_map, List.filterMap_map]
  rfl

/-- Any token among the message push attempts comes from a non-muted,
non-sender member of the chat. -/
theorem mem_pushTokens {env : Env} {cd : ChatData} {senderIdV t : String}
    (h : t ∈ (msgPushRecipients cd senderIdV).filterMap (userTokenOf env)) :
    ∃ uid, uid ∈ msgAllRecipients cd senderIdV ∧
      (cd.mutedUsers.getD []).contains uid = false ∧ userTokenOf env uid = some t := by
  rcases List.mem_filterMap.mp h with ⟨uid, hmem, htok⟩
  rcases List.mem_filter.mp hmem with ⟨hall, hmut⟩
  exact ⟨uid, hall, by simpa using hmut, htok⟩

/-! ### Concrete demonstration environments for the witnesses -/

/-- A small concrete environment: users `B`, `C`, `R` exist with tokens, the
push provider fails exactly on the token of `R`, all record writes succeed, and
`Y` has followers. -/
def demoEnv : Env where
  users := fun u =>
    if u = "B" then some (some "tokB")
    else if u = "C" then some (some "tokC")
    else if u = "R" then some (some "tokR")
    else if u = "N" then some none
    else none
  push := fun t => if t = "tokR" then .error "unavailable" else .ok ("mid-" ++ t)
  saveOk := fun _ => true
  saveId := fun r => "doc-" ++ r
  followers := fun u => if u = "Y" then [some "B", none, some " "] else []

/-- Two concrete chats: `chat1` has members `A,B,C` with `B` muted;
`chatMuted` has members `A,B` with `B` muted (every recipient muted). -/
def demoChats : String → Option ChatData := fun c =>
  if c = "chat1" then some ⟨some ["A", "B", "C"], some ["B"]⟩
  else if c = "chatMuted" then some ⟨some ["A", "B"], some ["B"]⟩
  else none

/-- The records written by `notifyMessage` on a found chat target exactly
the members other than the sender. -/
theorem notifyMessage_saves_map (env : Env) (chats : String → Option ChatData)
    (chatId messageId senderId senderName text : Option String) (cd : ChatData)
    (h1 : falsy chatId = false) (h2 : falsy senderId = false)
    (hfound : chats (chatId.getD "") = some cd) :
    (notifyMessage env chats chatId messageId senderId senderName text).saves.map
      (fun d => d.recipientId) = msgAllRecipients cd (senderId.getD "") := by
  rw [notifyMessage_found env chats chatId messageId senderId senderName text cd h1 h2 hfound]
  by_cases hp : (msgPushRecipients cd (senderId.getD "")).isEmpty
  · simp [hp, List.map_map, saveNotificationToFirestore, Function.comp_def]
  · by_cases ht : ((msgPushRecipients cd (senderId.getD "")).filterMap
      (userTokenOf env)).isEmpty
    · simp [hp, ht, List.map_map, saveNotificationToFirestore, Function.comp_def]
    · simp [hp, ht, List.map_map, saveNotificationToFirestore, Function.comp_def]

/-- The push attempts of `notifyMessage` on a found chat are exactly the
usable tokens of the push-eligible subset. -/
theorem notifyMessage_pushes (env : Env) (chats : String → Option ChatData)
    (chatId messageId senderId senderName text : Option String) (cd : ChatData)
    (h1 : falsy chatId = false) (h2 : falsy senderId = false)
    (hfound : chats (chatId.getD "") = some cd) :
    (notifyMessage env chats chatId messageId senderId senderName text).pushes =
      (msgPushRecipients cd (senderId.getD "")).filterMap (userTokenOf env) := by
  rw [notifyMessage_found env chats chatId messageId senderId senderName text cd h1 h2 hfound]
  by_cases hp : (msgPushRecipients cd (senderId.getD "")).isEmpty
  · have hnil : msgPushRecipients cd (senderId.getD "") = [] := by
      simpa [List.isEmpty_iff] using hp
    simp [hp, hnil]
  · by_cases ht : ((msgPushRecipients cd (senderId.getD "")).filterMap
      (userTokenOf env)).isEmpty
    · have hnil : (msgPushRecipients cd (senderId.getD "")).filterMap (userTokenOf env)
          = [] := by
        simpa [List.isEmpty_iff] using ht
      simp [hp, ht, hnil]
    · simp [hp, ht]

/-! ### C1 -/

/-- C1: for `/api/notify/message` on a found chat with member list `M`,
sender `s` and muted list `X`: a notification-record write is performed for
exactly the members of `M \ {s}` (muted members included), while push sends
are attempted exactly for the usable tokens of `(M \ {s}) \ X` — in
particular every push attempt originates from a non-muted recipient, so no
muted recipient ever appears among the push attempts. -/
theorem spec_c1 (env : Env) (chats : String → Option ChatData)
    (chatId messageId senderId senderName text : Option String) (cd : ChatData)
    (h1 : falsy chatId = false) (h2 : falsy senderId = false)
    (hfound : chats (chatId.getD "") = some cd) :
    ((notifyMessage env chats chatId messageId senderId senderName text).saves.map
        (fun d => d.recipientId) = msgAllRecipients cd (senderId.getD "")) ∧
    ((notifyMessage env chats chatId messageId senderId senderName text).pushes =
        (msgPushRecipients cd (senderId.getD "")).filterMap (userTokenOf env)) ∧
    (∀ t ∈ (notifyMessage env chats chatId messageId senderId senderName text).pushes,
        ∃ uid, uid ∈ msgAllRecipients cd (senderId.getD "") ∧
          (cd.mutedUsers.getD []).contains uid = false ∧
          userTokenOf env uid = some t) := by
  refine ⟨notifyMessage_saves_map env chats chatId messageId senderId senderName text cd
      h1 h2 hfound,
    notifyMessage_pushes env chats chatId messageId senderId senderName text cd h1 h2 hfound,
    fun t ht => ?_⟩
  rw [notifyMessage_pushes env chats chatId messageId senderId senderName text cd
    h1 h2 hfound] at ht
  exact mem_pushTokens ht

/-- Witness for C1 on the concrete chat `chat1` (members `A,B,C`, sender
`A`, muted `B`). -/
theorem spec_c1_witness :
    falsy (some "chat1") = false ∧ falsy (some "A") = false ∧
    demoChats ((some "chat1" : Option String).getD "") =
      some ⟨some ["A", "B", "C"], some ["B"]⟩ ∧
    (((notifyMessage demoEnv demoChats (some "chat1") none (some "A") none none).saves.map
        (fun d => d.recipientId) =
        msgAllRecipients ⟨some ["A", "B", "C"], some ["B"]⟩ "A") ∧
      ((notifyMessage demoEnv demoChats (some "chat1") none (some "A") none none).pushes =
        (msgPushRecipients ⟨some ["A", "B", "C"], some ["B"]⟩ "A").filterMap
          (userTokenOf demoEnv)) ∧
      (∀ t ∈ (notifyMessage demoEnv demoChats (some "chat1") none (some "A") none none).pushes,
        ∃ uid, uid ∈ msgAllRecipients ⟨some ["A", "B", "C"], some ["B"]⟩ "A" ∧
          ((⟨some ["A", "B", "C"], some ["B"]⟩ : ChatData).mutedUsers.getD []).contains uid
            = false ∧
          userTokenOf demoEnv uid = some t)) :=
  ⟨by decide, by decide, by decide,
    spec_c1 demoEnv demoChats (some "chat1") none (some "A") none none
      ⟨some ["A", "B", "C"], some ["B"]⟩ (by decide) (by decide) (by decide)⟩

/-! ### C5 -/

/-- C5 counterexample: on chat `chatMuted` (members `A,B`, sender `A`, `B`
muted — the "every recipient is muted" case) the success body of
`/api/notify/message` is `{success, message, sent, saved, muted}`: it lacks
the `total` and `mutedCount` fields required by the claimed five-field
shape. -/
theorem spec_c5_counterexample :
    (notifyMessage demoEnv demoChats (some "chatMuted") none (some "A") none none).status
      = 200 ∧
    (notifyMessage demoEnv demoChats (some "chatMuted") none (some "A") none none).body.map
      Prod.fst = ["success", "message", "sent", "saved", "muted"] ∧
    getNum (notifyMessage demoEnv demoChats (some "chatMuted") none (some "A")
      none none).body "total" = none := by
  decide

/-- C5 (amended): the five-field body `{success, sent, total, saved,
mutedCount}` is produced exactly when some push-eligible recipient has a
usable token; when every recipient is muted the success body is
`{success, message, sent, saved, muted}`, and when no push-eligible
recipient has a usable token it is `{success, message, sent, saved}` — the
latter two lack `total` and `mutedCount`. -/
theorem spec_c5_amended (env : Env) (chats : String → Option ChatData)
    (chatId messageId senderId senderName text : Option String) (cd : ChatData)
    (h1 : falsy chatId = false) (h2 : falsy senderId = false)
    (hfound : chats (chatId.getD "") = some cd) :
    (msgPushRecipients cd (senderId.getD "") ≠ [] →
      (msgPushRecipients cd (senderId.getD "")).filterMap (userTokenOf env) ≠ [] →
      (notifyMessage env chats chatId messageId senderId senderName text).body.map Prod.fst
        = ["success", "sent", "total", "saved", "mutedCount"]) ∧
    (msgPushRecipients cd (senderId.getD "") = [] →
      (notifyMessage env chats chatId messageId senderId senderName text).body.map Prod.fst
        = ["success", "message", "sent", "saved", "muted"]) ∧
    (msgPushRecipients cd (senderId.getD "") ≠ [] →
      (msgPushRecipients cd (senderId.getD "")).filterMap (userTokenOf env) = [] →
      (notifyMessage env chats chatId messageId senderId senderName text).body.map Prod.fst
        = ["success", "message", "sent", "saved"]) := by
  rw [notifyMessage_found env chats chatId messageId senderId senderName text cd h1 h2 hfound]
  refine ⟨fun hp ht => ?_, fun hp => ?_, fun hp ht => ?_⟩
  · simp [List.isEmpty_iff, hp, ht]
  · simp [List.isEmpty_iff, hp]
  · simp [List.isEmpty_iff, hp, ht]

/-- Witness for C5 (amended) on chat `chat1`. -/
theorem spec_c5_witness :
    falsy (some "chat1") = false ∧ falsy (some "A") = false ∧
    demoChats ((some "chat1" : Option String).getD "") =
      some ⟨some ["A", "B", "C"], some ["B"]⟩ ∧
    ((msgPushRecipients ⟨some ["A", "B", "C"], some ["B"]⟩ "A" ≠ [] →
      (msgPushRecipients ⟨some ["A", "B", "C"], some ["B"]⟩ "A").filterMap
        (userTokenOf demoEnv) ≠ [] →
      (notifyMessage demoEnv demoChats (some "chat1") none (some "A") none none).body.map
        Prod.fst = ["success", "sent", "total", "saved", "mutedCount"]) ∧
    (msgPushRecipients ⟨some ["A", "B", "C"], some ["B"]⟩ "A" = [] →
      (notifyMessage demoEnv demoChats (some "chat1") none (some "A") none none).body.map
        Prod.fst = ["success", "message", "sent", "saved", "muted"]) ∧
    (msgPushRecipients ⟨some ["A", "B", "C"], some ["B"]⟩ "A" ≠ [] →
      (msgPushRecipients ⟨some ["A", "B", "C"], some ["B"]⟩ "A").filterMap
        (userTokenOf demoEnv) = [] →
      (notifyMessage demoEnv demoChats (some "chat1") none (some "A") none none).body.map
        Prod.fst = ["success", "message", "sent", "saved"])) :=
  ⟨by decide, by decide, by decide,
    spec_c5_amended demoEnv demoChats (some "chat1") none (some "A") none none
      ⟨some ["A", "B", "C"], some ["B"]⟩ (by decide) (by decide) (by decide)⟩

/-! ### C7 -/

/-- Characterization of `notifyNewPost` once the required fields are
present: the four branches, with the token pipeline fused. -/
theorem notifyNewPost_eq (env : Env) (postId userId userName : Option String)
    (h3 : falsy postId = false) (h4 : falsy userId = false) :
    notifyNewPost env postId userId userName =
      (let docs := env.followers (userId.getD "")
       let followerIds := docs.filterMap goodToken
       let tokens := followerIds.filterMap (userTokenOf env)
       if docs.isEmpty then
         ⟨200, [("success", .bool true), ("message", .str "No followers to notify"),
           ("sent", .num 0)], [], [], []⟩
       else if followerIds.isEmpty then
         ⟨200, [("success", .bool true), ("message", .str "No valid follower IDs"),
           ("sent", .num 0)], [], [], []⟩
       else if tokens.isEmpty then
         ⟨200, [("success", .bool true), ("message", .str "No followers with FCM tokens"),
           ("sent", .num 0)], followerIds, [], []⟩
       else
         ⟨200,
          [("success", .bool true),
           ("sent", .num ((tokens.map env.push).filter (fun r => fulfilled r)).length),
           ("total", .num tokens.length)],
          followerIds, tokens, []⟩) := by
  simp only [notifyNewPost, h3, h4, Bool.or_self, Bool.false_eq_true, if_false,
    userTokenOf, List.map_map, List.filterMap_map]
  rfl

/-- C7: for both fan-out endpoints (`/api/notify/message` and
`/api/notify/new-post`), whenever the success body reports a dispatch batch
(`total` present), `sent ≤ total` and `total` equals the number of resolved
push-candidate recipients whose token lookup produced a non-empty (trimmed)
token; in the degenerate branches with no `total` field the reported `sent`
is `0`. For the message path the push attempts are exactly those usable
tokens. -/
theorem spec_c7 (env : Env) (chats : String → Option ChatData)
    (chatId messageId senderId senderName text : Option String) (cd : ChatData)
    (postId userId userName : Option String)
    (h1 : falsy chatId = false) (h2 : falsy senderId = false)
    (hfound : chats (chatId.getD "") = some cd)
    (h3 : falsy postId = false) (h4 : falsy userId = false) :
    ((notifyMessage env chats chatId messageId senderId senderName text).pushes =
        (msgPushRecipients cd (senderId.getD "")).filterMap (userTokenOf env)) ∧
    (∀ t, getNum (notifyMessage env chats chatId messageId senderId senderName text).body
        "total" = some t →
      t = (msgPushRecipients cd (senderId.getD "")).countP
            (fun u => (userTokenOf env u).isSome) ∧
      ∀ sN, getNum (notifyMessage env chats chatId messageId senderId senderName
          text).body "sent" = some sN → sN ≤ t) ∧
    (getNum (notifyMessage env chats chatId messageId senderId senderName text).body
        "total" = none →
      getNum (notifyMessage env chats chatId messageId senderId senderName text).body
        "sent" = some 0) ∧
    (∀ t, getNum (notifyNewPost env postId userId userName).body "total" = some t →
      t = ((env.followers (userId.getD "")).filterMap goodToken).countP
            (fun u => (userTokenOf env u).isSome) ∧
      ∀ sN, getNum (notifyNewPost env postId userId userName).body "sent" = some sN →
        sN ≤ t) ∧
    (getNum (notifyNewPost env postId userId userName).body "total" = none →
      getNum (notifyNewPost env postId userId userName).body "sent" = some 0) := by
  have hmsg := notifyMessage_found env chats chatId messageId senderId senderName text cd
    h1 h2 hfound
  have hpost := notifyNewPost_eq env postId userId userName h3 h4
  refine ⟨notifyMessage_pushes env chats chatId messageId senderId senderName text cd
    h1 h2 hfound, ?_, ?_, ?_, ?_⟩
  · rw [hmsg]
    by_cases hp : (msgPushRecipients cd (senderId.getD "")).isEmpty
    · simp [hp, getNum, List.find?]
    · by_cases ht : ((msgPushRecipients cd (senderId.getD "")).filterMap
        (userTokenOf env)).isEmpty
      · simp [hp, ht, getNum, List.find?]
      · simp only [hp, ht, Bool.false_eq_true, if_false]
        intro t htot
        simp [getNum, List.find?] at htot
        subst htot
        refine ⟨length_filterMap_eq_countP (userTokenOf env) _, ?_⟩
        intro sN hsent
        simp [getNum, List.find?] at hsent
        subst hsent
        calc ((List.map env.push ((msgPushRecipients cd (senderId.getD "")).filterMap
                (userTokenOf env))).filter (fun r => fulfilled r)).length
            ≤ (List.map env.push ((msgPushRecipients cd (senderId.getD "")).filterMap
                (userTokenOf env))).length := List.length_filter_le _ _
          _ = _ := by rw [List.length_map]
  · rw [hmsg]
    by_cases hp : (msgPushRecipients cd (senderId.getD "")).isEmpty
    · simp [hp, getNum, List.find?]
    · by_cases ht : ((msgPushRecipients cd (senderId.getD "")).filterMap
        (userTokenOf env)).isEmpty
      · simp [hp, ht, getNum, List.find?]
      · simp [hp, ht, getNum, List.find?]
  · rw [hpost]
    by_cases hd : (env.followers (userId.getD "")).isEmpty
    · simp [hd, getNum, List.find?]
    · by_cases hf : ((env.followers (userId.getD "")).filterMap goodToken).isEmpty
      · simp [hd, hf, getNum, List.find?]
      · by_cases ht : (((env.followers (userId.getD "")).filterMap goodToken).filterMap
          (userTokenOf env)).isEmpty
        · simp [hd, hf, ht, getNum, List.find?]
        · simp only [hd, hf, ht, Bool.false_eq_true, if_false]
          intro t htot
          simp [getNum, List.find?] at htot
          subst htot
          refine ⟨length_filterMap_eq_countP (userTokenOf env) _, ?_⟩
          intro sN hsent
          simp [getNum, List.find?] at hsent
          subst hsent
          calc ((List.map env.push (((env.followers (userId.getD "")).filterMap
                  goodToken).filterMap (userTokenOf env))).filter
                  (fun r => fulfilled r)).length
              ≤ (List.map env.push (((env.followers (userId.getD "")).filterMap
                  goodToken).filterMap (userTokenOf env))).length :=
                List.length_filter_le _ _
            _ = _ := by rw [List.length_map]
  · rw [hpost]
    by_cases hd : (env.followers (userId.getD "")).isEmpty
    · simp [hd, getNum, List.find?]
    · by_cases hf : ((env.followers (userId.getD "")).filterMap goodToken).isEmpty
      · simp [hd, hf, getNum, List.find?]
      · by_cases ht : (((env.followers (userId.getD "")).filterMap goodToken).filterMap
          (userTokenOf env)).isEmpty
        · simp [hd, hf, ht, getNum, List.find?]
        · simp [hd, hf, ht, getNum, List.find?]

/-- Witness for C7: message fan-out on `chat1` and new-post fan-out on the
followers of `Y`. -/
theorem spec_c7_witness :
    falsy (some "chat1") = false ∧ falsy (some "A") = false ∧
    demoChats ((some "chat1" : Option String).getD "") =
      some ⟨some ["A", "B", "C"], some ["B"]⟩ ∧
    falsy (some "post1") = false ∧ falsy (some "Y") = false ∧
    (((notifyMessage demoEnv demoChats (some "chat1") none (some "A") none none).pushes =
        (msgPushRecipients ⟨some ["A", "B", "C"], some ["B"]⟩ "A").filterMap
          (userTokenOf demoEnv)) ∧
    (∀ t, getNum (notifyMessage demoEnv demoChats (some "chat1") none (some "A") none
        none).body "total" = some t →
      t = (msgPushRecipients ⟨some ["A", "B", "C"], some ["B"]⟩ "A").countP
            (fun u => (userTokenOf demoEnv u).isSome) ∧
      ∀ sN, getNum (notifyMessage demoEnv demoChats (some "chat1") none (some "A") none
          none).body "sent" = some sN → sN ≤ t) ∧
    (getNum (notifyMessage demoEnv demoChats (some "chat1") none (some "A") none
        none).body "total" = none →
      getNum (notifyMessage demoEnv demoChats (some "chat1") none (some "A") none
        none).body "sent" = some 0) ∧
    (∀ t, getNum (notifyNewPost demoEnv (some "post1") (some "Y") none).body "total"
        = some t →
      t = ((demoEnv.followers ((some "Y" : Option String).getD "")).filterMap
            goodToken).countP (fun u => (userTokenOf demoEnv u).isSome) ∧
      ∀ sN, getNum (notifyNewPost demoEnv (some "post1") (some "Y") none).body "sent"
          = some sN → sN ≤ t) ∧
    (getNum (notifyNewPost demoEnv (some "post1") (some "Y") none).body "total" = none →
      getNum (notifyNewPost demoEnv (some "post1") (some "Y") none).body "sent"
        = some 0)) :=
  ⟨by decide, by decide, by decide, by decide, by decide,
    spec_c7 demoEnv demoChats (some "chat1") none (some "A") none none
      ⟨some ["A", "B", "C"], some ["B"]⟩ (some "post1") (some "Y") none
      (by decide) (by decide) (by decide) (by decide) (by decide)⟩

/-! ### C2 -/

/-- A token returned by `getUserFcmToken` is never the empty string (the
handler's `!fcmToken` check therefore passes). -/
theorem getUserFcmToken_fst_ne_empty {users : String → Option (Option String)}
    {uid tok : String} (h : (getUserFcmToken users uid).1 = some tok) : tok ≠ "" := by
  unfold getUserFcmToken at h
  cases hu : users uid with
  | none => rw [hu] at h; simp at h
  | some raw =>
    rw [hu] at h
    cases raw with
    | none => simp at h
    | some s =>
      by_cases hs : s = ""
      · simp [hs] at h
      · simp only [hs, if_false] at h
        simp at h
        subst h
        exact hs

/-- `/api/notify/new-post` writes no notification record in any branch. -/
theorem notifyNewPost_saves_nil (env : Env) (postId userId userName : Option String) :
    (notifyNewPost env postId userId userName).saves = [] := by
  unfold notifyNewPost
  split
  · rfl
  · dsimp only
    split
    · rfl
    · split
      · rfl
      · split
        · rfl
        · rfl

/-- On the single-recipient endpoints the record write exists exactly when
the awaited push send resolves: on success the handler writes the one
record for the recipient and answers 200, on a rejected send it answers 500
having written nothing. -/
def pushDependentSave (r : HandlerResult) (pushOutcome : Except String String)
    (rid : String) : Prop :=
  r.saves.map (fun d => d.recipientId) = (if fulfilled pushOutcome then [rid] else []) ∧
  r.status = (if fulfilled pushOutcome then 200 else 500)

/-- C2 counterexample: user `R` exists with token `tokR` and the push
provider rejects that token; `/api/notify/friend-request` then attempts the
push and performs **zero** record writes, answering 500 — the claimed
"exactly one NotificationRecord write per resolved recipient, independent
of push success" fails. -/
theorem spec_c2_counterexample :
    (notifyFriendRequest demoEnv (some "R") (some "B") none).pushes = ["tokR"] ∧
    (notifyFriendRequest demoEnv (some "R") (some "B") none).saves = [] ∧
    (notifyFriendRequest demoEnv (some "R") (some "B") none).status = 500 := by
  decide

/-- C2 (amended): persistence is independent of push outcome only on the
message fan-out path, where one record is written per resolved recipient
whatever the provider does; on each single-recipient endpoint the record
write is performed exactly when the push send succeeds (a provider failure
yields HTTP 500 and no record write), and `/api/notify/new-post` never
writes records at all. -/
theorem spec_c2_amended (env : Env) (chats : String → Option ChatData)
    (chatId messageId senderId senderName text : Option String) (cd : ChatData)
    (rid aid pid cid tok : String) (nm txt ty : Option String)
    (h1 : falsy chatId = false) (h2 : falsy senderId = false)
    (hfound : chats (chatId.getD "") = some cd)
    (hrid : rid ≠ "") (haid : aid ≠ "") (hpid : pid ≠ "") (hcid : cid ≠ "")
    (hne : rid ≠ aid)
    (hlk : getUserFcmToken env.users rid = (some tok, true)) :
    ((notifyMessage env chats chatId messageId senderId senderName text).saves.map
        (fun d => d.recipientId) = msgAllRecipients cd (senderId.getD "")) ∧
    ((notifyNewPost env (some pid) (some aid) nm).saves = []) ∧
    pushDependentSave (notifyFriendRequest env (some rid) (some aid) nm)
      (env.push tok) rid ∧
    pushDependentSave (notifyFriendRequestAccepted env (some rid) (some aid) nm)
      (env.push tok) rid ∧
    pushDependentSave (notifyPostComment env (some pid) (some rid) (some aid) nm txt)
      (env.push tok) rid ∧
    pushDependentSave (notifyPostReaction env (some pid) (some rid) (some aid) nm ty)
      (env.push tok) rid ∧
    pushDependentSave (notifyPostShare env (some pid) (some rid) (some aid) nm)
      (env.push tok) rid ∧
    pushDependentSave (notifyCommentReply env (some pid) (some rid) (some aid) nm txt)
      (env.push tok) rid ∧
    pushDependentSave (notifyCommentLike env (some pid) (some cid) (some rid) (some aid) nm)
      (env.push tok) rid ∧
    pushDependentSave (notifyGroupInvite env (some rid) (some pid) nm (some aid) txt)
      (env.push tok) rid ∧
    pushDependentSave (notifyMention env (some rid) (some aid) nm (some pid) (some cid) ty)
      (env.push tok) rid := by
  have hfst : (getUserFcmToken env.users rid).1 = some tok := by rw [hlk]
  have htok : tok ≠ "" := getUserFcmToken_fst_ne_empty hfst
  have hne' : aid ≠ rid := fun h => hne h.symm
  refine ⟨notifyMessage_saves_map env chats chatId messageId senderId senderName text cd
      h1 h2 hfound,
    notifyNewPost_saves_nil env (some pid) (some aid) nm, ?_, ?_, ?_, ?_, ?_, ?_, ?_, ?_, ?_⟩
  all_goals
    unfold pushDependentSave
  · cases hp : env.push tok <;>
      simp [notifyFriendRequest, falsy, hrid, haid, hlk, htok, hp, fulfilled,
        saveNotificationToFirestore]
  · cases hp : env.push tok <;>
      simp [notifyFriendRequestAccepted, falsy, hrid, haid, hlk, htok, hp, fulfilled,
        saveNotificationToFirestore]
  · cases hp : env.push tok <;>
      simp [notifyPostComment, falsy, hrid, haid, hpid, hne, hlk, htok, hp, fulfilled,
        saveNotificationToFirestore]
  · cases hp : env.push tok <;>
      simp [notifyPostReaction, falsy, hrid, haid, hpid, hne, hlk, htok, hp, fulfilled,
        saveNotificationToFirestore]
  · cases hp : env.push tok <;>
      simp [notifyPostShare, falsy, hrid, haid, hpid, hne, hlk, htok, hp, fulfilled,
        saveNotificationToFirestore]
  · cases hp : env.push tok <;>
      simp [notifyCommentReply, falsy, hrid, haid, hpid, hne, hlk, htok, hp, fulfilled,
        saveNotificationToFirestore]
  · cases hp : env.push tok <;>
      simp [notifyCommentLike, falsy, hrid, haid, hpid, hcid, hne, hlk, htok, hp,
        fulfilled, saveNotificationToFirestore]
  · cases hp : env.push tok <;>
      simp [notifyGroupInvite, falsy, hrid, haid, hpid, hlk, htok, hp, fulfilled,
        saveNotificationToFirestore]
  · cases hp : env.push tok <;>
      simp [notifyMention, falsy, hrid, haid, hpid, hcid, hne, hlk, htok, hp, fulfilled,
        saveNotificationToFirestore]

/-- Witness for C2 (amended): concrete environment with recipient `R`
(token `tokR`, push provider failing on it). -/
theorem spec_c2_amended_witness :
    falsy (some "chat1") = false ∧ falsy (some "A") = false ∧
    demoChats ((some "chat1" : Option String).getD "") =
      some ⟨some ["A", "B", "C"], some ["B"]⟩ ∧
    ("R" : String) ≠ "" ∧ ("B" : String) ≠ "" ∧ ("p" : String) ≠ "" ∧
    ("c" : String) ≠ "" ∧ ("R" : String) ≠ "B" ∧
    getUserFcmToken demoEnv.users "R" = (some "tokR", true) ∧
    (((notifyMessage demoEnv demoChats (some "chat1") none (some "A") none none).saves.map
        (fun d => d.recipientId) =
        msgAllRecipients ⟨some ["A", "B", "C"], some ["B"]⟩ "A") ∧
    ((notifyNewPost demoEnv (some "p") (some "B") none).saves = []) ∧
    pushDependentSave (notifyFriendRequest demoEnv (some "R") (some "B") none)
      (demoEnv.push "tokR") "R" ∧
    pushDependentSave (notifyFriendRequestAccepted demoEnv (some "R") (some "B") none)
      (demoEnv.push "tokR") "R" ∧
    pushDependentSave (notifyPostComment demoEnv (some "p") (some "R") (some "B") none none)
      (demoEnv.push "tokR") "R" ∧
    pushDependentSave (notifyPostReaction demoEnv (some "p") (some "R") (some "B") none none)
      (demoEnv.push "tokR") "R" ∧
    pushDependentSave (notifyPostShare demoEnv (some "p") (some "R") (some "B") none)
      (demoEnv.push "tokR") "R" ∧
    pushDependentSave (notifyCommentReply demoEnv (some "p") (some "R") (some "B") none none)
      (demoEnv.push "tokR") "R" ∧
    pushDependentSave
      (notifyCommentLike demoEnv (some "p") (some "c") (some "R") (some "B") none)
      (demoEnv.push "tokR") "R" ∧
    pushDependentSave (notifyGroupInvite demoEnv (some "R") (some "p") none (some "B") none)
      (demoEnv.push "tokR") "R" ∧
    pushDependentSave
      (notifyMention demoEnv (some "R") (some "B") none (some "p") (some "c") none)
      (demoEnv.push "tokR") "R") :=
  ⟨by decide, by decide, by decide, by decide, by decide, by decide, by decide, by decide,
    by decide,
    spec_c2_amended demoEnv demoChats (some "chat1") none (some "A") none none
      ⟨some ["A", "B", "C"], some ["B"]⟩ "R" "B" "p" "c" "tokR" none none none
      (by decide) (by decide) (by decide) (by decide) (by decide) (by decide) (by decide)
      (by decide) (by decide)⟩

/-! ### C8 -/

/-- A handler result that is a pure self-action short-circuit: HTTP 200,
`success: true`, `sent: 0`, and no external effect at all — no directory
lookup, no push send, no record write. -/
def selfShortCircuit (r : HandlerResult) : Prop :=
  r.status = 200 ∧
  (List.find? (fun kv => kv.1 = "success") r.body).map (fun kv => kv.2)
    = some (.bool true) ∧
  getNum r.body "sent" = some 0 ∧
  r.lookups = [] ∧ r.pushes = [] ∧ r.saves = []

/-- C8: on post-comment, post-reaction, post-share, comment-reply,
comment-like and mention, whenever all required fields are present and the
acting user equals the owner/recipient, the handler returns a success body
with `sent: 0` before performing any external call: no directory lookup, no
push send, no record write. -/
theorem spec_c8 (env : Env) (u pid cid : String) (nm txt ty : Option String)
    (hu : u ≠ "") (hp : pid ≠ "") (hc : cid ≠ "") :
    selfShortCircuit (notifyPostComment env (some pid) (some u) (some u) nm txt) ∧
    selfShortCircuit (notifyPostReaction env (some pid) (some u) (some u) nm ty) ∧
    selfShortCircuit (notifyPostShare env (some pid) (some u) (some u) nm) ∧
    selfShortCircuit (notifyCommentReply env (some pid) (some u) (some u) nm txt) ∧
    selfShortCircuit (notifyCommentLike env (some pid) (some cid) (some u) (some u) nm) ∧
    selfShortCircuit (notifyMention env (some u) (some u) nm (some pid) (some cid) ty) := by
  refine ⟨?_, ?_, ?_, ?_, ?_, ?_⟩ <;>
    simp [selfShortCircuit, notifyPostComment, notifyPostReaction, notifyPostShare,
      notifyCommentReply, notifyCommentLike, notifyMention, falsy, hu, hp, hc,
      getNum, List.find?]

/-- Witness for C8 at user `A`, post `p`, comment `c`. -/
theorem spec_c8_witness :
    ("A" : String) ≠ "" ∧ ("p" : String) ≠ "" ∧ ("c" : String) ≠ "" ∧
    (selfShortCircuit (notifyPostComment demoEnv (some "p") (some "A") (some "A")
        none none) ∧
    selfShortCircuit (notifyPostReaction demoEnv (some "p") (some "A") (some "A")
        none none) ∧
    selfShortCircuit (notifyPostShare demoEnv (some "p") (some "A") (some "A") none) ∧
    selfShortCircuit (notifyCommentReply demoEnv (some "p") (some "A") (some "A")
        none none) ∧
    selfShortCircuit (notifyCommentLike demoEnv (some "p") (some "c") (some "A")
        (some "A") none) ∧
    selfShortCircuit (notifyMention demoEnv (some "A") (some "A") none (some "p")
        (some "c") none)) :=
  ⟨by decide, by decide, by decide,
    spec_c8 demoEnv "A" "p" "c" none none none (by decide) (by decide) (by decide)⟩

/-! ### C6 -/

/-- C6: verifying an active, non-expired, non-exhausted entry with the
stored code succeeds and deletes the entry, so success is one-shot: an
immediately repeated verify with the same code reports `OTP_NOT_FOUND`. -/
theorem spec_c6 (s : OtpStore) (email code : String) (e : OtpEntry) (now : Nat)
    (hemail : email ≠ "") (hcode : code ≠ "")
    (hget : otpGet s email = some e)
    (hexp : ¬ e.expiresAt < now) (hatt : e.attempts < MAX_OTP_ATTEMPTS)
    (hmatch : e.otp = jsTrim code) :
    (otpVerify s (some email) (some code) now).1 = .verified ∧
    otpGet (otpVerify s (some email) (some code) now).2 email = none ∧
    (otpVerify (otpVerify s (some email) (some code) now).2 (some email) (some code)
      now).1 = .notFound := by
  have hattn : ¬ e.attempts ≥ MAX_OTP_ATTEMPTS := Nat.not_le.mpr hatt
  have hv : otpVerify s (some email) (some code) now = (.verified, otpDelete s email) := by
    simp [otpVerify, falsy, hemail, hcode, hget, hexp, hattn, hmatch]
  refine ⟨by rw [hv], by rw [hv]; exact otpGet_otpDelete_self s email, ?_⟩
  rw [hv]
  simp [otpVerify, falsy, hemail, hcode, otpGet_otpDelete_self]

/-- Witness for C6: store with one fresh entry for `a@b.c`. -/
theorem spec_c6_witness :
    ("a@b.c" : String) ≠ "" ∧ ("123456" : String) ≠ "" ∧
    otpGet [("a@b.c", ⟨"123456", 300000, 0, 0⟩)] "a@b.c"
      = some ⟨"123456", 300000, 0, 0⟩ ∧
    ¬ (300000 : Nat) < 1000 ∧ (0 : Nat) < MAX_OTP_ATTEMPTS ∧
    ("123456" : String) = jsTrim "123456" ∧
    ((otpVerify [("a@b.c", ⟨"123456", 300000, 0, 0⟩)] (some "a@b.c") (some "123456")
        1000).1 = .verified ∧
     otpGet (otpVerify [("a@b.c", ⟨"123456", 300000, 0, 0⟩)] (some "a@b.c")
        (some "123456") 1000).2 "a@b.c" = none ∧
     (otpVerify (otpVerify [("a@b.c", ⟨"123456", 300000, 0, 0⟩)] (some "a@b.c")
        (some "123456") 1000).2 (some "a@b.c") (some "123456") 1000).1 = .notFound) :=
  ⟨by decide, by decide, by decide, by decide, by decide, by decide,
    spec_c6 [("a@b.c", ⟨"123456", 300000, 0, 0⟩)] "a@b.c" "123456"
      ⟨"123456", 300000, 0, 0⟩ 1000 (by decide) (by decide) (by decide) (by decide)
      (by decide) (by decide)⟩

/-! ### C3 -/

/-- A concrete store for the C3 counterexample: one entry for `a@b.c` with
code `123456`, no attempts yet. -/
def c3Store : OtpStore := [("a@b.c", ⟨"123456", 1000, 0, 0⟩)]

/-- C3 counterexample: after the third consecutive wrong verification the
entry is **still stored** (with `attempts = 3`) — the claim says it is
deleted after the third wrong attempt. It is the fourth attempt that finds
`attempts ≥ 3`, deletes the entry, and reports `TOO_MANY_ATTEMPTS` (which
the claim also asserts, and which would be impossible had the entry really
been deleted: a deleted entry reports `OTP_NOT_FOUND`). -/
theorem spec_c3_counterexample :
    (otpVerify c3Store (some "a@b.c") (some "000000") 500).1 = .invalidOtp 2 ∧
    (otpVerify (otpVerify c3Store (some "a@b.c") (some "000000") 500).2
      (some "a@b.c") (some "000000") 500).1 = .invalidOtp 1 ∧
    (otpVerify (otpVerify (otpVerify c3Store (some "a@b.c") (some "000000") 500).2
      (some "a@b.c") (some "000000") 500).2 (some "a@b.c") (some "000000") 500).1
      = .invalidOtp 0 ∧
    otpGet (otpVerify (otpVerify (otpVerify c3Store (some "a@b.c") (some "000000")
      500).2 (some "a@b.c") (some "000000") 500).2 (some "a@b.c") (some "000000")
      500).2 "a@b.c" = some ⟨"123456", 1000, 3, 0⟩ := by
  decide

/-- C3 (amended): three consecutive wrong verifications against an active
entry report `remainingAttempts` 2, 1, 0; after the third the entry is
**not yet deleted** — it remains stored with `attempts = 3` — and the
fourth verify attempt (even with the correct code) finds the attempt cap
reached, deletes the entry, and reports `TOO_MANY_ATTEMPTS`. -/
theorem spec_c3_amended (s : OtpStore) (email : String) (e : OtpEntry) (now : Nat)
    (w1 w2 w3 c : String)
    (hemail : email ≠ "") (hw1 : w1 ≠ "") (hw2 : w2 ≠ "") (hw3 : w3 ≠ "") (hc : c ≠ "")
    (hget : otpGet s email = some e) (hatt : e.attempts = 0)
    (hexp : ¬ e.expiresAt < now)
    (hm1 : e.otp ≠ jsTrim w1) (hm2 : e.otp ≠ jsTrim w2) (hm3 : e.otp ≠ jsTrim w3) :
    otpVerify s (some email) (some w1) now
      = (.invalidOtp 2, otpSet s email { e with attempts := 1 }) ∧
    otpVerify (otpSet s email { e with attempts := 1 }) (some email) (some w2) now
      = (.invalidOtp 1, otpSet (otpSet s email { e with attempts := 1 }) email
          { e with attempts := 2 }) ∧
    otpVerify (otpSet (otpSet s email { e with attempts := 1 }) email
        { e with attempts := 2 }) (some email) (some w3) now
      = (.invalidOtp 0, otpSet (otpSet (otpSet s email { e with attempts := 1 }) email
          { e with attempts := 2 }) email { e with attempts := 3 }) ∧
    otpGet (otpSet (otpSet (otpSet s email { e with attempts := 1 }) email
        { e with attempts := 2 }) email { e with attempts := 3 }) email
      = some { e with attempts := 3 } ∧
    (otpVerify (otpSet (otpSet (otpSet s email { e with attempts := 1 }) email
        { e with attempts := 2 }) email { e with attempts := 3 }) (some email) (some c)
        now).1 = .tooManyAttempts ∧
    otpGet (otpVerify (otpSet (otpSet (otpSet s email { e with attempts := 1 }) email
        { e with attempts := 2 }) email { e with attempts := 3 }) (some email) (some c)
        now).2 email = none := by
  refine ⟨?_, ?_, ?_, otpGet_otpSet_self _ email _, ?_, ?_⟩
  · simp [otpVerify, falsy, hemail, hw1, hget, hexp, hm1, hatt, MAX_OTP_ATTEMPTS]
  · simp [otpVerify, falsy, hemail, hw2, otpGet_otpSet_self, hexp, hm2, hatt,
      MAX_OTP_ATTEMPTS]
  · simp [otpVerify, falsy, hemail, hw3, otpGet_otpSet_self, hexp, hm3, hatt,
      MAX_OTP_ATTEMPTS]
  · simp [otpVerify, falsy, hemail, hc, otpGet_otpSet_self, hexp, MAX_OTP_ATTEMPTS]
  · simp [otpVerify, falsy, hemail, hc, otpGet_otpSet_self, hexp, MAX_OTP_ATTEMPTS,
      otpGet_otpDelete_self]

/-- Witness for C3 (amended) on a concrete one-entry store. -/
theorem spec_c3_witness :
    ("x@y.z" : String) ≠ "" ∧ ("000001" : String) ≠ "" ∧ ("000002" : String) ≠ "" ∧
    ("000003" : String) ≠ "" ∧ ("654321" : String) ≠ "" ∧
    otpGet [("x@y.z", ⟨"654321", 2000, 0, 0⟩)] "x@y.z" = some ⟨"654321", 2000, 0, 0⟩ ∧
    (⟨"654321", 2000, 0, 0⟩ : OtpEntry).attempts = 0 ∧
    ¬ (⟨"654321", 2000, 0, 0⟩ : OtpEntry).expiresAt < 500 ∧
    (⟨"654321", 2000, 0, 0⟩ : OtpEntry).otp ≠ jsTrim "000001" ∧
    (⟨"654321", 2000, 0, 0⟩ : OtpEntry).otp ≠ jsTrim "000002" ∧
    (⟨"654321", 2000, 0, 0⟩ : OtpEntry).otp ≠ jsTrim "000003" ∧
    (otpVerify [("x@y.z", ⟨"654321", 2000, 0, 0⟩)] (some "x@y.z") (some "000001") 500
      = (.invalidOtp 2, otpSet [("x@y.z", ⟨"654321", 2000, 0, 0⟩)] "x@y.z"
          ⟨"654321", 2000, 1, 0⟩)) :=
  ⟨by decide, by decide, by decide, by decide, by decide, by decide, by decide,
    by decide, by decide, by decide, by decide,
    (spec_c3_amended [("x@y.z", ⟨"654321", 2000, 0, 0⟩)] "x@y.z"
      ⟨"654321", 2000, 0, 0⟩ 500 "000001" "000002" "000003" "654321"
      (by decide) (by decide) (by decide) (by decide) (by decide) (by decide)
      (by decide) (by decide) (by decide) (by decide) (by decide)).1⟩

/-! ### C4 -/

/-- The rate-limit gate of `/api/otp/send` as the code computes it: an
active, non-expired entry whose ceiling-rounded remaining lifetime exceeds
`expiry − 60` seconds — equivalently (for entries the code itself stored,
where `expiresAt = createdAt + expiry`) an entry created within the last
60 seconds. -/
def rateLimitHit (s : OtpStore) (email : String) (now : Nat) : Bool :=
  match otpGet s email with
  | some e =>
    e.expiresAt > now &&
      (e.expiresAt - now + 999) / 1000 > OTP_EXPIRY_MINUTES * 60 - 60
  | none => false

/-- A store for the C4 counterexample: entry for `a@b.c` created at time 0
with the standard 5-minute expiry. -/
def c4Store : OtpStore := [("a@b.c", ⟨"111111", 300000, 0, 0⟩)]

/-- C4 counterexample: at `now = 120000` ms the entry in `c4Store` is
active, non-expired and was created 120 s ago — within the claimed
`(expiry window − 60 s) = 240 s` window — yet `/api/otp/send` does **not**
reject with 429: it issues a fresh code and answers success. The code only
rejects requests made within the first 60 s of an active entry. -/
theorem spec_c4_counterexample :
    (120000 : Nat) - 0 < 240000 ∧
    otpGet c4Store "a@b.c" = some ⟨"111111", 300000, 0, 0⟩ ∧
    (300000 : Nat) > 120000 ∧
    (otpSend c4Store (some "a@b.c") 120000 "222222" true).1
      = .ok (OTP_EXPIRY_MINUTES * 60) := by
  refine ⟨by decide, by decide, by decide, ?_⟩
  decide

/-- C4 (amended): for a well-formed address, `/api/otp/send` is rejected as
rate-limited exactly when an active, non-expired entry still has more than
`expiry − 60` seconds of (ceiling-rounded) remaining lifetime — i.e. the
entry was created within the last 60 seconds — with
`retryAfter = 60 − (expiry − remainingSeconds)`; otherwise (and when the
mail send succeeds) a fresh entry with `attempts = 0` and a full expiry
window is stored and the response reports success with
`expiresIn = expiry` in seconds. -/
theorem spec_c4_amended (s : OtpStore) (email : String) (now : Nat) (newOtp : String)
    (hemail : email ≠ "") (hfmt : emailRegexTest email = true) :
    (rateLimitHit s email now = true →
      ∃ e, otpGet s email = some e ∧
        (otpSend s (some email) now newOtp true).1 =
          .rateLimited (60 - ((OTP_EXPIRY_MINUTES * 60 : Int) -
            ((e.expiresAt - now + 999) / 1000 : Nat))) ∧
        (otpSend s (some email) now newOtp true).2 = s) ∧
    (rateLimitHit s email now = false →
      (otpSend s (some email) now newOtp true).1 = .ok (OTP_EXPIRY_MINUTES * 60) ∧
      otpGet (otpSend s (some email) now newOtp true).2 email
        = some ⟨newOtp, now + OTP_EXPIRY_MINUTES * 60 * 1000, 0, now⟩) ∧
    (∀ e, otpGet s email = some e → e.expiresAt = e.createdAt + 300000 →
      (rateLimitHit s email now = true ↔ now < e.createdAt + 60000)) := by
  refine ⟨fun hhit => ?_, fun hmiss => ?_, fun e hget hexp => ?_⟩
  · unfold rateLimitHit at hhit
    cases hget : otpGet s email with
    | none => rw [hget] at hhit; simp at hhit
    | some e =>
      rw [hget] at hhit
      have hactive : e.expiresAt > now := by
        by_contra hna
        simp [hna] at hhit
      have hrs : (e.expiresAt - now + 999) / 1000 > OTP_EXPIRY_MINUTES * 60 - 60 := by
        by_contra hna
        simp [hactive, hna] at hhit
      refine ⟨e, rfl, ?_, ?_⟩ <;>
        simp [otpSend, falsy, hemail, hfmt, hget, hactive, hrs]
  · unfold rateLimitHit at hmiss
    cases hget : otpGet s email with
    | none =>
      rw [hget] at hmiss
      simp [otpSend, falsy, hemail, hfmt, hget, otpGet_otpSet_self]
    | some e =>
      rw [hget] at hmiss
      by_cases hactive : e.expiresAt > now
      · have hrs : ¬ (e.expiresAt - now + 999) / 1000 > OTP_EXPIRY_MINUTES * 60 - 60 := by
          intro hna
          simp [hactive, hna] at hmiss
        simp [otpSend, falsy, hemail, hfmt, hget, hactive, hrs, otpGet_otpSet_self]
      · simp [otpSend, falsy, hemail, hfmt, hget, hactive, otpGet_otpSet_self]
  · unfold rateLimitHit
    rw [hget]
    simp only [Bool.and_eq_true, decide_eq_true_eq, gt_iff_lt]
    rw [hexp]
    unfold OTP_EXPIRY_MINUTES
    constructor
    · rintro ⟨h1, h2⟩
      omega
    · intro h
      omega

/-- Witness for C4 (amended): applied at the rate-limited point — the same
entry as the counterexample but only 30 s after creation. -/
theorem spec_c4_witness :
    ("a@b.c" : String) ≠ "" ∧ emailRegexTest "a@b.c" = true ∧
    rateLimitHit c4Store "a@b.c" 30000 = true ∧
    (rateLimitHit c4Store "a@b.c" 30000 = true →
      ∃ e, otpGet c4Store "a@b.c" = some e ∧
        (otpSend c4Store (some "a@b.c") 30000 "333333" true).1 =
          .rateLimited (60 - ((OTP_EXPIRY_MINUTES * 60 : Int) -
            ((e.expiresAt - 30000 + 999) / 1000 : Nat))) ∧
        (otpSend c4Store (some "a@b.c") 30000 "333333" true).2 = c4Store) :=
  ⟨by decide, by decide, by decide,
    (spec_c4_amended c4Store "a@b.c" 30000 "333333" (by decide) (by decide)).1⟩

/-! ### C9 — decimal representation of the generated codes -/

/-- `Nat.toDigitsCore` ignores the fuel as long as it exceeds the number. -/
theorem toDigitsCore_fuel (b : Nat) (hb : 2 ≤ b) :
    ∀ f g n ds, n < f → n < g →
      Nat.toDigitsCore b f n ds = Nat.toDigitsCore b g n ds := by
  intro f
  induction f with
  | zero => intro g n ds hf _; exact absurd hf (Nat.not_lt_zero n)
  | succ f ih =>
    intro g n ds hf hg
    cases g with
    | zero => exact absurd hg (Nat.not_lt_zero n)
    | succ g =>
      simp only [Nat.toDigitsCore]
      by_cases hdiv : n / b = 0
      · simp [hdiv]
      · simp only [hdiv, if_false]
        have hn : 0 < n := Nat.pos_of_ne_zero (fun h0 => hdiv (by simp [h0]))
        have hlt : n / b < n := Nat.div_lt_self hn (by omega)
        exact ih g (n / b) _ (by omega) (by omega)

/-- The accumulator of `Nat.toDigitsCore` is just appended to the digits. -/
theorem toDigitsCore_append (b : Nat) (hb : 2 ≤ b) :
    ∀ f n ds, n < f →
      Nat.toDigitsCore b f n ds = Nat.toDigitsCore b f n [] ++ ds := by
  intro f
  induction f with
  | zero => intro n ds h; exact absurd h (Nat.not_lt_zero n)
  | succ f ih =>
    intro n ds h
    simp only [Nat.toDigitsCore]
    by_cases hdiv : n / b = 0
    · simp [hdiv]
    · simp only [hdiv, if_false]
      have hn : 0 < n := Nat.pos_of_ne_zero (fun h0 => hdiv (by simp [h0]))
      have hlt : n / b < n := Nat.div_lt_self hn (by omega)
      rw [ih (n / b) _ (by omega), ih (n / b) [Nat.digitChar (n % b)] (by omega),
        List.append_assoc]
      rfl

/-- One-digit numbers print as their digit character. -/
theorem toDigits_small (n : Nat) (h : n < 10) :
    Nat.toDigits 10 n = [Nat.digitChar n] := by
  unfold Nat.toDigits
  simp only [Nat.toDigitsCore]
  have hdiv : n / 10 = 0 := Nat.div_eq_of_lt h
  simp [hdiv, Nat.mod_eq_of_lt h]

/-- Peeling the last decimal digit off `Nat.toDigits`. -/
theorem toDigits_step (n : Nat) (h10 : 10 ≤ n) :
    Nat.toDigits 10 n = Nat.toDigits 10 (n / 10) ++ [Nat.digitChar (n % 10)] := by
  have hdiv : n / 10 ≠ 0 := by
    intro h0
    have : n < 10 := (Nat.div_eq_zero_iff (by omega)).mp h0
    omega
  have hn : 0 < n := by omega
  have hlt : n / 10 < n := Nat.div_lt_self hn (by omega)
  unfold Nat.toDigits
  calc Nat.toDigitsCore 10 (n + 1) n []
      = Nat.toDigitsCore 10 n (n / 10) [Nat.digitChar (n % 10)] := by
        simp only [Nat.toDigitsCore]
        simp [hdiv]
    _ = Nat.toDigitsCore 10 n (n / 10) [] ++ [Nat.digitChar (n % 10)] :=
        toDigitsCore_append 10 (by omega) n (n / 10) _ hlt
    _ = Nat.toDigitsCore 10 (n / 10 + 1) (n / 10) [] ++ [Nat.digitChar (n % 10)] := by
        rw [toDigitsCore_fuel 10 (by omega) n (n / 10 + 1) (n / 10) [] hlt
          (Nat.lt_succ_self _)]

/-- The decimal print of a positive number has `log₁₀ n + 1` characters. -/
theorem toDigits_length : ∀ n : Nat, 0 < n →
    (Nat.toDigits 10 n).length = Nat.log 10 n + 1 := by
  intro n
  induction n using Nat.strong_induction_on with
  | _ n ih =>
    intro hn
    by_cases h : n < 10
    · rw [toDigits_small n h]
      have : Nat.log 10 n = 0 := Nat.log_eq_zero_iff.mpr (Or.inl h)
      simp [this]
    · push_neg at h
      have hlt : n / 10 < n := Nat.div_lt_self (by omega) (by omega)
      have hpos : 0 < n / 10 := by
        have : (10 : Nat) / 10 ≤ n / 10 := Nat.div_le_div_right h
        simpa using this
      rw [toDigits_step n h, List.length_append]
      rw [ih (n / 10) hlt hpos]
      have hlog : Nat.log 10 (n / 10) = Nat.log 10 n - 1 := Nat.log_div_base 10 n ▸ rfl
      have hlogpos : 0 < Nat.log 10 n := Nat.log_pos (by omega) h
      simp only [List.length_cons, List.length_nil]
      omega

/-- The ten digit characters are decimal digits. -/
theorem digitChar_isDigit : ∀ m, m < 10 → (Nat.digitChar m).isDigit = true := by
  decide

/-- Every character of a decimal print is a digit. -/
theorem toDigits_all_digits : ∀ n : Nat, ∀ c ∈ Nat.toDigits 10 n, c.isDigit = true := by
  intro n
  induction n using Nat.strong_induction_on with
  | _ n ih =>
    by_cases h : n < 10
    · rw [toDigits_small n h]
      intro c hc
      simp at hc
      subst hc
      exact digitChar_isDigit n h
    · push_neg at h
      rw [toDigits_step n h]
      intro c hc
      rcases List.mem_append.mp hc with h1 | h2
      · exact ih (n / 10) (Nat.div_lt_self (by omega) (by omega)) c h1
      · simp at h2
        subst h2
        exact digitChar_isDigit (n % 10) (Nat.mod_lt n (by omega))

/-- Numbers between 100000 and 999999 print as exactly six decimal
digits. -/
theorem repr_isSixDigits (n : Nat) (hlo : 100000 ≤ n) (hhi : n ≤ 999999) :
    isSixDigits (Nat.repr n) = true := by
  have hdata : (Nat.repr n).toList = Nat.toDigits 10 n := rfl
  have hlen : (Nat.repr n).length = (Nat.toDigits 10 n).length := rfl
  have hlog : Nat.log 10 n = 5 :=
    Nat.log_eq_of_pow_le_of_lt_pow (by norm_num; omega) (by norm_num; omega)
  have h6 : (Nat.repr n).length = 6 := by
    rw [hlen, toDigits_length n (by omega), hlog]
  unfold isSixDigits
  simp only [h6, hdata, Bool.and_eq_true, decide_eq_true_eq, List.all_eq_true]
  exact ⟨trivial, toDigits_all_digits n⟩

/-- The floor in `generateOTP` lands in `[100000, 999999]` for any random
draw in `[0, 1)`. -/
theorem generateOTP_range (r : ℚ) (h0 : 0 ≤ r) (h1 : r < 1) :
    100000 ≤ (Int.floor ((100000 : ℚ) + r * 900000)).toNat ∧
    (Int.floor ((100000 : ℚ) + r * 900000)).toNat ≤ 999999 := by
  have hf1 : (100000 : Int) ≤ Int.floor ((100000 : ℚ) + r * 900000) := by
    rw [Int.le_floor]
    push_cast
    nlinarith
  have hf2 : Int.floor ((100000 : ℚ) + r * 900000) < 1000000 := by
    rw [Int.floor_lt]
    push_cast
    nlinarith
  omega

/-- C9: every code produced by `generateOTP` — for every possible random
draw `r ∈ [0, 1)`, hence on issue and on resend alike — is a string of
exactly six decimal digits, i.e. matches `^\d{6}$`. -/
theorem spec_c9 (r : ℚ) (h0 : 0 ≤ r) (h1 : r < 1) :
    isSixDigits (generateOTP r) = true := by
  obtain ⟨ha, hb⟩ := generateOTP_range r h0 h1
  exact repr_isSixDigits _ ha hb

/-- Witness for C9 at the draw `r = 0`. -/
theorem spec_c9_witness :
    (0 : ℚ) ≤ 0 ∧ (0 : ℚ) < 1 ∧ isSixDigits (generateOTP 0) = true :=
  ⟨le_refl 0, by norm_num, spec_c9 0 (le_refl 0) (by norm_num)⟩

/-! ### C10 -/

/-- C10: every record built by the persistence helper has `read = false`
and its stored `data` consists exactly of the input entries whose value was
present (`undefined`/`null` entries removed); the helper is a total
function — it never throws — and returns the assigned document id exactly
when the write succeeds, `null` on a write failure. -/
theorem spec_c10 (env : Env) (recipientId type title body : String)
    (data : List (String × Option String)) :
    (saveNotificationToFirestore env recipientId type title body data).2.read = false ∧
    (saveNotificationToFirestore env recipientId type title body data).2.recipientId
      = recipientId ∧
    (∀ k v,
      (k, v) ∈ (saveNotificationToFirestore env recipientId type title body data).2.data
        ↔ (k, some v) ∈ data) ∧
    ((saveNotificationToFirestore env recipientId type title body data).1
      = if env.saveOk recipientId then some (env.saveId recipientId) else none) := by
  refine ⟨rfl, rfl, ?_, rfl⟩
  intro k v
  show (k, v) ∈ cleanData data ↔ (k, some v) ∈ data
  unfold cleanData
  constructor
  · intro h
    rcases List.mem_filterMap.mp h with ⟨⟨k', ov⟩, hmem, hf⟩
    cases ov with
    | none => simp at hf
    | some w =>
      simp only [Option.map_some] at hf
      have hk : k' = k := congrArg Prod.fst (Option.some.inj hf)
      have hv : w = v := congrArg Prod.snd (Option.some.inj hf)
      subst hk
      subst hv
      exact hmem
  · intro h
    exact List.mem_filterMap.mpr ⟨(k, some v), h, rfl⟩

end ChatLofi
